import Mathlib

/-!
# Verification of the resume.ai candidate-ranking core

A shallow embedding, in Lean 4, of the deterministic core of the resume.ai
pipeline: the matching engine (`services/agents/matching_agent.py`), the
scoring engine (`services/agents/scoring_agent.py`), the ranking engine
(`services/agents/ranking_agent.py`), the orchestrator
(`services/agents/orchestrator_agent.py`), the job store writes of
`services/apis/v1/ranking_job/create.py` and the result query of
`services/apis/v1/ranking_job/result.py`.

Conventions of the embedding:
* Python floats are modelled as `ℚ` (exact rational arithmetic).
* Python dicts with a fixed schema are modelled as structures; keys that a
  given write leaves absent are modelled with `Option`.
* Python sets are modelled as lists; where the cardinality or membership of a
  set matters we deduplicate (`List.dedup`), which preserves exactly the
  set semantics used by the source (membership tests and counts).
* String handling (`.lower()`, `\w`) is modelled over the ASCII fragment,
  which is the fragment exercised by skill/role/degree strings.
* `round(x, 2)` is modelled as exact round-half-to-even at two decimals.
-/

/-- Lower-case a string character by character (Python `str.lower()` on the
ASCII fragment). -/
def lowerStr (s : String) : String :=
  String.mk (s.toList.map Char.toLower)

/-- `leadsList p l` is true when `p` is a prefix of `l`. -/
def leadsList : List Char → List Char → Bool
  | [], _ => true
  | _ :: _, [] => false
  | a :: as, b :: bs => a = b && leadsList as bs

/-- `occursIn p l` is true when `p` occurs contiguously inside `l`. -/
def occursIn (p : List Char) : List Char → Bool
  | [] => p.isEmpty
  | c :: cs => leadsList p (c :: cs) || occursIn p cs

/-- Python's `pat in s` substring test. -/
def strOccursIn (pat s : String) : Bool :=
  occursIn pat.toList s.toList

/-- `utils/helpers.py` `normalize_skill`: drop every character that is not a
word character, whitespace or one of `.#+`, collapse whitespace runs to a
single space, strip and lower-case. -/
def normalize_skill (skill : String) : String :=
  let kept := skill.toList.filter
    (fun c => c.isAlphanum || c = '_' || c.isWhitespace || c = '.' || c = '#' || c = '+')
  let joined := " ".intercalate (((String.mk kept).split Char.isWhitespace).filter (· ≠ ""))
  lowerStr joined.trim

/-- Python `str.split()` into a `set` of words: whitespace tokens, empties
dropped, deduplicated. -/
def wordSet (s : String) : List String :=
  ((s.split Char.isWhitespace).filter (· ≠ "")).dedup

/-! ## Data model (§3 of the spec) -/

/-- One skill requirement of the JD (`{"skill": ..., "weight": ...}`). -/
structure SkillReq where
  skill : String
  weight : ℚ
deriving DecidableEq

/-- `jd_data["scoring_weights"]`. The JD schema always populates every key,
so the fields are total; the Python-side `.get` defaults (0.4/0.3/0.15/0.1)
fire only on a malformed dict. `other` is part of the schema but never used
in the total-score sum. -/
structure ScoringWeights where
  skills : ℚ
  experience : ℚ
  education : ℚ
  career_trajectory : ℚ
  other : ℚ
deriving DecidableEq

/-- `jd_data["requirements"]`. -/
structure Requirements where
  must_have_skills : List SkillReq
  nice_to_have_skills : List SkillReq
  min_experience_years : ℚ
  education_level : String
deriving DecidableEq

/-- The analyzed job description (`jd_data`). -/
structure JDData where
  jd_id : String
  job_title : String
  company : String
  requirements : Requirements
  scoring_weights : ScoringWeights
deriving DecidableEq

/-- The skill lists of a parsed CV (`cv_data["skills"]`). -/
structure CVSkills where
  technical : List String
  soft : List String
  tools : List String
  languages : List String
deriving DecidableEq

/-- One experience entry of a parsed CV. -/
structure ExperienceEntry where
  company : String
  role : String
  technologies : List String
  duration_months : ℚ
deriving DecidableEq

/-- One education entry of a parsed CV. -/
structure EducationEntry where
  degree : String
  institution : String
deriving DecidableEq

/-- A parsed CV (`cv_data`). -/
structure CVData where
  cv_id : String
  candidate_name : String
  summary : String
  skills : CVSkills
  experience : List ExperienceEntry
  education : List EducationEntry
  total_experience_years : ℚ
deriving DecidableEq

/-! ## MatchingEngine — `services/agents/matching_agent.py` -/

/-- A matched skill entry produced by `_match_skills`. -/
structure MatchedSkill where
  skill : String
  weight : ℚ
  match_score : ℚ
deriving DecidableEq

/-- The `skill_matches` sub-object of a match result. -/
structure SkillMatches where
  matched_must_have : List MatchedSkill
  missing_must_have : List String
  matched_nice_to_have : List MatchedSkill
  extra_skills : List String
  match_percentage : ℚ
deriving DecidableEq

/-- The `experience_match` sub-object (`_match_experience`). -/
structure ExperienceMatch where
  cv_years : ℚ
  required_years : ℚ
  meets_requirement : Bool
  difference_years : ℚ
deriving DecidableEq

/-- The `education_match` sub-object (`_match_education`). -/
structure EducationMatch where
  has_education : Bool
  highest_degree : String
  required_level : String
  meets_requirement : Bool
deriving DecidableEq

/-- The full `matches` object produced by `MatchingAgent.process`. -/
structure Matches where
  skill_matches : SkillMatches
  semantic_score : ℚ
  experience_match : ExperienceMatch
  education_match : EducationMatch
deriving DecidableEq

/-- The normalized candidate skill collection of `_match_skills`: all four
skill categories plus the technologies of every experience entry.  The
Python source collects them into a `set`; list membership is the only
operation performed on it, so a list with duplicates is an exact model. -/
def cv_skill_set (cv : CVData) : List String :=
  ((cv.skills.technical ++ cv.skills.tools ++ cv.skills.soft ++ cv.skills.languages).map
     normalize_skill)
    ++ (cv.experience.flatMap (fun e => e.technologies.map normalize_skill))

/-- `_is_similar_skill`: fuzzy word-overlap check.  The required skill is
similar to some candidate skill when the word sets overlap and the overlap
fraction (relative to the required skill's word count) exceeds one half. -/
def is_similar_skill (target_skill : String) (cv_skills : List String) : Bool :=
  let target_parts := wordSet target_skill
  cv_skills.any (fun cv_skill =>
    let cv_parts := wordSet cv_skill
    let overlap := (target_parts.filter (fun t => cv_parts.contains t)).length
    decide (0 < overlap) &&
      decide ((1 / 2 : ℚ) < (overlap : ℚ) / (target_parts.length : ℚ)))

/-- The must-have loop of `_match_skills`: returns the matched entries and
the missing skill names, in requirement order. -/
def match_must_have (cv_skills : List String) : List SkillReq → List MatchedSkill × List String
  | [] => ([], [])
  | req :: rest =>
    let tail := match_must_have cv_skills rest
    let skill := normalize_skill req.skill
    if cv_skills.contains skill || is_similar_skill skill cv_skills then
      (⟨req.skill, req.weight, 100⟩ :: tail.1, tail.2)
    else
      (tail.1, req.skill :: tail.2)

/-- The nice-to-have loop of `_match_skills`. -/
def match_nice_to_have (cv_skills : List String) : List SkillReq → List MatchedSkill
  | [] => []
  | req :: rest =>
    let tail := match_nice_to_have cv_skills rest
    let skill := normalize_skill req.skill
    if cv_skills.contains skill || is_similar_skill skill cv_skills then
      ⟨req.skill, req.weight, 80⟩ :: tail
    else
      tail

/-- `MatchingAgent._match_skills`.  The iteration order of the Python `set`
behind `extra_skills` is unspecified; the embedding fixes first-occurrence
order, which no downstream computation depends on. -/
def match_skills (cv : CVData) (jd : JDData) : SkillMatches :=
  let cv_skills := cv_skill_set cv
  let must_have := jd.requirements.must_have_skills
  let nice_to_have := jd.requirements.nice_to_have_skills
  let mm := match_must_have cv_skills must_have
  let matched_nice := match_nice_to_have cv_skills nice_to_have
  let jd_skills := (must_have ++ nice_to_have).map (fun s => normalize_skill s.skill)
  let extra_skills := (cv_skills.dedup.filter (fun s => ¬ jd_skills.contains s)).take 10
  let total_must_have := must_have.length
  let matched_count := mm.1.length
  let match_percentage : ℚ :=
    if 0 < total_must_have then (matched_count : ℚ) / (total_must_have : ℚ) * 100 else 0
  { matched_must_have := mm.1
    missing_must_have := mm.2
    matched_nice_to_have := matched_nice
    extra_skills := extra_skills
    match_percentage := match_percentage }

/-- `MatchingAgent._match_experience`. -/
def match_experience (cv : CVData) (jd : JDData) : ExperienceMatch :=
  let cv_years := cv.total_experience_years
  let required_years := jd.requirements.min_experience_years
  { cv_years := cv_years
    required_years := required_years
    meets_requirement := decide (required_years ≤ cv_years)
    difference_years := cv_years - required_years }

/-- `MatchingAgent._match_education`. -/
def match_education (cv : CVData) (jd : JDData) : EducationMatch :=
  let education := cv.education
  let required_level := lowerStr jd.requirements.education_level
  let has_education := decide (0 < education.length)
  let degrees := education.map (fun e => lowerStr e.degree)
  let highest_degree :=
    if education.isEmpty then ""
    else if degrees.any (fun d => strOccursIn "phd" d || strOccursIn "doctorate" d) then "PhD"
    else if degrees.any (fun d => strOccursIn "master" d || strOccursIn "ms" d || strOccursIn "mba" d) then
      "Master's"
    else if degrees.any (fun d => strOccursIn "bachelor" d || strOccursIn "bs" d || strOccursIn "ba" d) then
      "Bachelor's"
    else ((education.headD ⟨"", ""⟩).degree)
  let meets_requirement :=
    if strOccursIn "master" required_level && strOccursIn "bachelor" (lowerStr highest_degree) then
      false
    else if strOccursIn "phd" required_level && !(strOccursIn "phd" (lowerStr highest_degree)) then
      false
    else true
  { has_education := has_education
    highest_degree := highest_degree
    required_level := required_level
    meets_requirement := meets_requirement }

/-! ## ScoringEngine — `services/agents/scoring_agent.py` -/

/-- Round a rational to the nearest integer, halves to even (the rounding
mode of Python's builtin `round`). -/
def rndHE (q : ℚ) : ℤ :=
  let f := ⌊q⌋
  if q - f < 1 / 2 then f
  else if 1 / 2 < q - f then f + 1
  else if f % 2 = 0 then f else f + 1

/-- Python `round(x, 2)`. -/
def round2 (q : ℚ) : ℚ :=
  (rndHE (q * 100) : ℚ) / 100

/-- The score breakdown stored under `"scores"`. -/
structure Scores where
  total : ℚ
  skills_match : ℚ
  experience_relevance : ℚ
  education_fit : ℚ
  career_trajectory : ℚ
  confidence : ℚ
deriving DecidableEq

/-- `ScoringAgent._calculate_skills_score`. -/
def calculate_skills_score (matchResult : Matches) : ℚ :=
  let skill_matches := matchResult.skill_matches
  let base_score := skill_matches.match_percentage
  let nice_to_have := skill_matches.matched_nice_to_have.length
  let bonus : ℚ := min 20 ((nice_to_have : ℚ) * 4)
  let semantic_score := matchResult.semantic_score
  let final_score := base_score * (6 / 10) + semantic_score * (3 / 10) + bonus
  min 100 (max 0 final_score)

/-- `ScoringAgent._calculate_experience_score`. -/
def calculate_experience_score (matchResult : Matches) : ℚ :=
  let cv_years := matchResult.experience_match.cv_years
  let required_years := matchResult.experience_match.required_years
  if required_years = 0 then 100
  else if required_years ≤ cv_years then
    if cv_years ≤ required_years * (3 / 2) then 100
    else if cv_years ≤ required_years * 2 then 90
    else 75
  else cv_years / required_years * 70

/-- `ScoringAgent._calculate_education_score`. -/
def calculate_education_score (matchResult : Matches) : ℚ :=
  let edu_match := matchResult.education_match
  if !edu_match.has_education then 50
  else if edu_match.meets_requirement then 100
  else 70

/-- The role-seniority keyword heuristic of
`ScoringAgent._calculate_career_trajectory_score` (roles are already
lower-cased by the caller). -/
def roleLevel (role : String) : Nat :=
  let senior_keywords := ["senior", "lead", "principal", "architect", "director", "manager", "head"]
  let mid_keywords := ["engineer", "developer", "analyst", "consultant"]
  if senior_keywords.any (fun kw => strOccursIn kw role) then 3
  else if mid_keywords.any (fun kw => strOccursIn kw role) then 2
  else 1

/-- `ScoringAgent._calculate_career_trajectory_score`. -/
def calculate_career_trajectory_score (cv : CVData) : ℚ :=
  let experiences := cv.experience
  if experiences.length < 2 then 75
  else
    let roles := (experiences.take 5).map (fun e => lowerStr e.role)
    let role_levels := roles.map roleLevel
    let score : ℚ :=
      if 2 ≤ role_levels.length then
        if role_levels.getLastD 0 ≤ role_levels.headD 0 then 85 else 60
      else 50
    let companies := ((experiences.take 5).map (fun e => e.company)).dedup
    let score :=
      if 2 ≤ companies.length ∧ companies.length ≤ 4 then score + 10
      else if 4 < companies.length then score - 5
      else score
  min 100 (max 0 score)

/-- `ScoringAgent._calculate_confidence`. -/
def calculate_confidence (matchResult : Matches) (cv : CVData) : ℚ :=
  let confidence : ℚ := 1 / 2
  let confidence :=
    if cv.experience ≠ [] ∧ 2 ≤ cv.experience.length then confidence + 3 / 20 else confidence
  let confidence := if cv.education ≠ [] then confidence + 1 / 10 else confidence
  let confidence := if cv.skills.technical ≠ [] then confidence + 3 / 20 else confidence
  let confidence :=
    if 80 < matchResult.skill_matches.match_percentage then confidence + 1 / 10 else confidence
  min 1 confidence

/-- `ScoringAgent._identify_strengths_weaknesses`.  (`cv_data` and `jd_data`
are parameters of the Python method but are never read by it.)  Numbers are
rendered with `ℚ`'s `toString`, standing in for Python float formatting; no
claim inspects the rendered text. -/
def identify_strengths_weaknesses (_cv : CVData) (_jd : JDData) (matchResult : Matches) (scores : Scores) :
    List String × List String :=
  let skill_matches := matchResult.skill_matches
  let matched_must_have := skill_matches.matched_must_have
  let missing_must_have := skill_matches.missing_must_have
  let matched_nice_to_have := skill_matches.matched_nice_to_have
  let strengths : List String := []
  let strengths :=
    if 3 ≤ matched_must_have.length then
      strengths ++ ["Strong match on required skills: "
        ++ ", ".intercalate ((matched_must_have.take 3).map (fun s => s.skill))]
    else strengths
  let strengths :=
    if matched_nice_to_have ≠ [] then
      strengths ++ ["Has " ++ toString matched_nice_to_have.length ++ " additional desired skills"]
    else strengths
  let weaknesses : List String := []
  let weaknesses :=
    if missing_must_have ≠ [] then
      weaknesses ++ ["Missing required skills: " ++ ", ".intercalate (missing_must_have.take 3)]
    else weaknesses
  let cv_years := matchResult.experience_match.cv_years
  let required_years := matchResult.experience_match.required_years
  let strengths :=
    if required_years * (12 / 10) < cv_years then
      strengths ++ [toString cv_years ++ " years of experience (exceeds requirement)"]
    else strengths
  let weaknesses :=
    if cv_years < required_years then
      weaknesses ++ ["Only " ++ toString cv_years ++ " years experience (requires "
        ++ toString required_years ++ ")"]
    else weaknesses
  let edu_match := matchResult.education_match
  let strengths :=
    if edu_match.meets_requirement then
      if edu_match.highest_degree ≠ "" then
        strengths ++ ["Has " ++ edu_match.highest_degree ++ " degree"]
      else strengths
    else strengths
  let weaknesses :=
    if !edu_match.meets_requirement then weaknesses ++ ["Education level below requirement"]
    else weaknesses
  let strengths :=
    if 85 ≤ scores.career_trajectory then strengths ++ ["Strong career progression"]
    else strengths
  let weaknesses :=
    if scores.career_trajectory < 60 then weaknesses ++ ["Limited career progression"]
    else weaknesses
  (strengths.take 5, weaknesses.take 5)

/-- The output of `ScoringAgent.process` on the success path. -/
structure ScoreResult where
  success : Bool
  scores : Scores
  strengths : List String
  weaknesses : List String
deriving DecidableEq

/-- `ScoringAgent.process` (the success path; the `cv_data`/`jd_data`
presence check lives at the dict layer, below this model's typed inputs). -/
def scoring_process (cv : CVData) (jd : JDData) (matchResult : Matches) : ScoreResult :=
  let weights := jd.scoring_weights
  let skills_score := calculate_skills_score matchResult
  let experience_score := calculate_experience_score matchResult
  let education_score := calculate_education_score matchResult
  let career_score := calculate_career_trajectory_score cv
  let total_score :=
    weights.skills * skills_score +
    weights.experience * experience_score +
    weights.education * education_score +
    weights.career_trajectory * career_score
  let confidence := calculate_confidence matchResult cv
  let scores : Scores :=
    { total := round2 total_score
      skills_match := round2 skills_score
      experience_relevance := round2 experience_score
      education_fit := round2 education_score
      career_trajectory := round2 career_score
      confidence := round2 confidence }
  let sw := identify_strengths_weaknesses cv jd matchResult scores
  { success := true, scores := scores, strengths := sw.1, weaknesses := sw.2 }

/-! ## RankingEngine — `services/agents/ranking_agent.py` -/

/-- Modelled from the spec: the tier label constants.  The module
`constants/candidate_tier.py` (`CandidateTierConstant`, imported by the
ranking agent through `dtos/enitities/candidate/tier.py`) is not present
under the repository sources; the spec fixes `tier ∈ {A,B,C,D}` and the
ranking agent's own tier-distribution dict uses the literal keys
`"A" "B" "C" "D"`. -/
def CandidateTierConstant.A : String := "A"

/-- Modelled from the spec: see `CandidateTierConstant.A`. -/
def CandidateTierConstant.B : String := "B"

/-- Modelled from the spec: see `CandidateTierConstant.A`. -/
def CandidateTierConstant.C : String := "C"

/-- Modelled from the spec: see `CandidateTierConstant.A`. -/
def CandidateTierConstant.D : String := "D"

/-- A candidate score object as compiled by
`OrchestratorAgent._match_and_score_cv` and consumed by the ranking agent:
the `"matches"` sub-dict. -/
structure CandidateMatches where
  matched_skills : List MatchedSkill
  missing_skills : List String
  extra_skills : List String
deriving DecidableEq

/-- A candidate score object (`candidate_score` in the orchestrator).  The
`rank`/`tier`/`explanation` keys do not exist until the ranking agent adds
them, hence `Option`. -/
structure Candidate where
  candidate_id : String
  cv_id : String
  jd_id : String
  candidate_name : String
  scores : Scores
  «matches» : CandidateMatches
  strengths : List String
  weaknesses : List String
  rank : Option Nat
  tier : Option String
  explanation : Option String
deriving DecidableEq

/-- The `critical_skills` list of `RankingAgent._apply_filters`: names of
must-have skills whose weight is at least 0.9. -/
def critical_skills (jd : JDData) : List String :=
  (jd.requirements.must_have_skills.filter (fun s => (9 / 10 : ℚ) ≤ s.weight)).map
    (fun s => s.skill)

/-- `RankingAgent._apply_filters`, transcribed clause by clause: drop on
`total < 30`, drop on `skills_match < 40`, drop on a critical missing skill
(case-insensitive comparison against `missing_skills`). -/
def apply_filters : List Candidate → JDData → List Candidate
  | [], _ => []
  | candidate :: rest, jd =>
    if candidate.scores.total < 30 then apply_filters rest jd
    else if candidate.scores.skills_match < 40 then apply_filters rest jd
    else
      let missing_skills := candidate.«matches».missing_skills
      let has_critical_gaps :=
        (critical_skills jd).any
          (fun skill => (missing_skills.map lowerStr).contains (lowerStr skill))
      if has_critical_gaps && decide (0 < (critical_skills jd).length) then
        apply_filters rest jd
      else candidate :: apply_filters rest jd

/-- The order `sorted(key=lambda x: x["scores"]["total"], reverse=True)`
sorts by: `a` may come before `b` exactly when `a`'s total is at least
`b`'s. -/
def byTotalDesc (a b : Candidate) : Prop :=
  b.scores.total ≤ a.scores.total

instance : DecidableRel byTotalDesc :=
  fun a b => inferInstanceAs (Decidable (b.scores.total ≤ a.scores.total))

instance : IsTotal Candidate byTotalDesc :=
  ⟨fun a b => le_total b.scores.total a.scores.total⟩

instance : IsTrans Candidate byTotalDesc :=
  ⟨fun _ _ _ h₁ h₂ => le_trans h₂ h₁⟩

/-- The stable descending sort by `scores.total` — Python's
`sorted(key=lambda x: x["scores"]["total"], reverse=True)`.  Python's sort
is stable, and a stable sort by a total preorder is unique, so
`List.insertionSort` (which is stable) is an exact model. -/
def sortCandidates (l : List Candidate) : List Candidate :=
  l.insertionSort byTotalDesc

/-- The tier branch of `RankingAgent._assign_ranks_and_tiers`. -/
def tierOf (score : ℚ) : String :=
  if 85 ≤ score then CandidateTierConstant.A
  else if 70 ≤ score then CandidateTierConstant.B
  else if 55 ≤ score then CandidateTierConstant.C
  else CandidateTierConstant.D

/-- The body of the `enumerate` loop of `_assign_ranks_and_tiers`:
candidate `i` gets `rank = i + 1` and the tier of its total score. -/
def assign_ranks_and_tiers_from (i : Nat) : List Candidate → List Candidate
  | [] => []
  | c :: rest =>
    { c with rank := some (i + 1), tier := some (tierOf c.scores.total) }
      :: assign_ranks_and_tiers_from (i + 1) rest

/-- `RankingAgent._assign_ranks_and_tiers`. -/
def assign_ranks_and_tiers (candidates : List Candidate) : List Candidate :=
  assign_ranks_and_tiers_from 0 candidates

/-- `RankingAgent._generate_explanation`. -/
def generate_explanation (candidate : Candidate) : String :=
  let scores := candidate.scores
  let total := scores.total
  let parts : List String :=
    [if 85 ≤ total then "Excellent match for this position."
     else if 70 ≤ total then "Strong candidate with good potential."
     else if 55 ≤ total then "Decent fit with some gaps."
     else "Marginal fit for the role."]
  let strengths := candidate.strengths
  let parts :=
    if strengths ≠ [] then
      parts ++ ["Strengths: " ++ "; ".intercalate (strengths.take 3) ++ "."]
    else parts
  let weaknesses := candidate.weaknesses
  let parts :=
    if weaknesses ≠ [] then
      parts ++ ["Areas of concern: " ++ "; ".intercalate (weaknesses.take 2) ++ "."]
    else parts
  let parts :=
    if 85 ≤ scores.skills_match then parts ++ ["Excellent skills match."]
    else if scores.skills_match < 60 then parts ++ ["Skills match is below expectations."]
    else parts
  " ".intercalate parts

/-- Setting `candidate["explanation"]` inside `RankingAgent.process`. -/
def explSet (c : Candidate) : Candidate :=
  { c with explanation := some (generate_explanation c) }

/-- One `distribution[tier] = distribution.get(tier, 0) + 1` step on the
insertion-ordered dict that `_calculate_tier_distribution` builds. -/
def incrKey : List (String × Nat) → String → List (String × Nat)
  | [], k => [(k, 1)]
  | (k', v) :: rest, k =>
    if k' = k then (k', v + 1) :: rest else (k', v) :: incrKey rest k

/-- `RankingAgent._calculate_tier_distribution`. -/
def calculate_tier_distribution (candidates : List Candidate) : List (String × Nat) :=
  candidates.foldl (fun d c => incrKey d (c.tier.getD "C"))
    [("A", 0), ("B", 0), ("C", 0), ("D", 0)]

/-- The response of `RankingAgent.process`: on the empty-input early return
the `total_candidates` and `tiers` keys are absent from the dict, hence
`Option`. -/
structure RankOutput where
  success : Bool
  ranked_candidates : List Candidate
  total_candidates : Option Nat
  tiers : Option (List (String × Nat))
deriving DecidableEq

/-- `RankingAgent.process` (the `candidate_scores`/`jd_data` happy path;
a thrown exception cannot occur in the embedded pure fragment). -/
def rank_process (candidate_scores : List Candidate) (jd_data : JDData) : RankOutput :=
  if candidate_scores.isEmpty then
    { success := true, ranked_candidates := [], total_candidates := none, tiers := none }
  else
    let filtered_candidates := apply_filters candidate_scores jd_data
    let sorted_candidates := sortCandidates filtered_candidates
    let ranked_candidates := assign_ranks_and_tiers sorted_candidates
    let ranked_candidates := ranked_candidates.map explSet
    let tier_distribution := calculate_tier_distribution ranked_candidates
    { success := true
      ranked_candidates := ranked_candidates
      total_candidates := some ranked_candidates.length
      tiers := some tier_distribution }

/-! ## Orchestrator — `services/agents/orchestrator_agent.py`

The collaborator calls (LLM JD analysis, per-CV parsing, match+score) are
I/O; their outcomes are inputs of the embedded pipeline, exactly at the
interfaces the orchestrator consumes (`jd_result`, the gathered
`parsed_cvs`, the gathered `candidate_scores`). -/

/-- The result of `jd_analyzer_agent.process` as the orchestrator reads it:
a `success` flag plus, on success, `jd_data` (the `embeddings` dict only
flows onward into matching, which is outside the pipeline fragment the
orchestrator itself computes on). -/
structure JdResult where
  success : Bool
  jd_data : JDData
deriving DecidableEq

/-- One gathered element of `parsed_cvs`: a `success` flag plus the parsed
`cv_data` (a task that threw is gathered as its exception, i.e. failure). -/
structure ParsedCV where
  success : Bool
  cv_data : CVData
deriving DecidableEq

/-- The per-candidate outcome of `_match_and_score_cv`: `none` models both
a caught exception and an unsuccessful match/score (the candidate is
dropped); `some` carries the compiled candidate score. -/
def MatchScoreOracle : Type := CVData → Option Candidate

/-- The inputs of one `OrchestratorAgent.process` run: the generated
`job_id` and the collaborator outcomes. -/
structure OrchestratorEnv where
  job_id : String
  jd_result : JdResult
  parsed_cvs : List ParsedCV
  match_and_score : MatchScoreOracle
  completed_at : Nat

/-- The dict returned by `OrchestratorAgent.process`.  On the error path
(`handle_error`) only `success`/`error` are present; `rankingInvoked` is a
ghost flag of the embedding recording whether Phase 4 (ranking) was
reached. -/
structure OrchResult where
  success : Bool
  error : Option String
  job_id : String
  jd_data : Option JDData
  total_cvs_submitted : Nat
  total_cvs_parsed : Nat
  total_candidates_ranked : Nat
  ranked_candidates : List Candidate
  tier_distribution : List (String × Nat)
  completed_at : Option Nat
  rankingInvoked : Bool
deriving DecidableEq

/-- `BaseAgent.handle_error` as the orchestrator's except-branch returns it:
`{"success": False, "error": str(e)}`. -/
def orchestrator_handle_error (env : OrchestratorEnv) (msg : String) (invoked : Bool) :
    OrchResult :=
  { success := false
    error := some msg
    job_id := env.job_id
    jd_data := none
    total_cvs_submitted := 0
    total_cvs_parsed := 0
    total_candidates_ranked := 0
    ranked_candidates := []
    tier_distribution := []
    completed_at := none
    rankingInvoked := invoked }

/-- `OrchestratorAgent.process`: Phase 1 JD analysis (failure is fatal),
Phase 2 keep successfully parsed CVs, Phase 3 keep successful match+score
results, Phase 4 rank, then compile the final result dict. -/
def orchestrator_process (env : OrchestratorEnv) : OrchResult :=
  if !env.jd_result.success then
    orchestrator_handle_error env "Failed to analyze job description" false
  else
    let jd_data := env.jd_result.jd_data
    let successful_cvs := env.parsed_cvs.filter (fun cv => cv.success)
    let candidate_scores := successful_cvs.filterMap (fun cv => env.match_and_score cv.cv_data)
    let ranking_result := rank_process candidate_scores jd_data
    if !ranking_result.success then
      orchestrator_handle_error env "Failed to rank candidates" true
    else
      { success := true
        error := none
        job_id := env.job_id
        jd_data := some jd_data
        total_cvs_submitted := env.parsed_cvs.length
        total_cvs_parsed := successful_cvs.length
        total_candidates_ranked := ranking_result.total_candidates.getD 0
        ranked_candidates := ranking_result.ranked_candidates
        tier_distribution := ranking_result.tiers.getD []
        completed_at := some env.completed_at
        rankingInvoked := true }

/-! ## Job store and job services —
`services/apis/v1/ranking_job/create.py`, `result.py` -/

/-- `constants/workflow_satus.py` (the statuses the job services write). -/
def WorkflowStatusConstant.PROCESSING : String := "processing"

/-- See `WorkflowStatusConstant.PROCESSING`. -/
def WorkflowStatusConstant.COMPLETED : String := "completed"

/-- See `WorkflowStatusConstant.PROCESSING`. -/
def WorkflowStatusConstant.FAILED : String := "failed"

/-- A job record as stored in Redis.  Each write stores a fresh dict, so
keys a given write omits are `none` (e.g. the completed/failed writes do
not carry `created_at`). -/
structure JobRecord where
  status : String
  created_at : Option Nat
  completed_at : Option Nat
  cv_count : Nat
  job_title : String
  company : String
  results : Option OrchResult
  error : Option String
deriving DecidableEq

/-- The key/value job store (`redis_session`): an insertion-ordered
association list; `set` overwrites in place. -/
abbrev JobStore : Type := List (String × JobRecord)

/-- `redis_session.set(key, value)` — overwrite, last writer wins. -/
def storeSet (st : JobStore) (k : String) (v : JobRecord) : JobStore :=
  if (st.map Prod.fst).contains k then
    st.map (fun p => if p.1 = k then (k, v) else p)
  else st ++ [(k, v)]

/-- `redis_session.get(key)`. -/
def storeGet (st : JobStore) (k : String) : Option JobRecord :=
  (st.find? (fun p => p.1 = k)).map Prod.snd

/-- `CreateRankingJobService.process_ranking_job`: write the initial
`processing` record, run the orchestrator, then overwrite with the terminal
`completed` or `failed` record.  The orchestrator's outcome is the
pre-computed `result` (its collaborator inputs are fixed in `env`);
timestamps are modelled by the `now₀ now₁ : Nat` ticks. -/
def process_ranking_job (st : JobStore) (job_id job_title company : String)
    (cv_count : Nat) (now₀ now₁ : Nat) (env : OrchestratorEnv) : JobStore :=
  let st := storeSet st job_id
    { status := WorkflowStatusConstant.PROCESSING
      created_at := some now₀
      completed_at := none
      cv_count := cv_count
      job_title := job_title
      company := company
      results := none
      error := none }
  let result := orchestrator_process env
  if result.success then
    storeSet st job_id
      { status := WorkflowStatusConstant.COMPLETED
        created_at := none
        completed_at := some now₁
        cv_count := cv_count
        job_title := job_title
        company := company
        results := some result
        error := none }
  else
    storeSet st job_id
      { status := WorkflowStatusConstant.FAILED
        created_at := none
        completed_at := some now₁
        cv_count := cv_count
        job_title := job_title
        company := company
        results := none
        error := some (result.error.getD "Unknown error") }

/-- The error taxonomy of `errors/bad_input_error.py` and
`errors/not_found_error.py`, as raised by the result service. -/
inductive ServiceError where
  | badInput (responseMessage responseKey : String) (httpStatusCode : Nat)
  | notFound (responseMessage responseKey : String) (httpStatusCode : Nat)
deriving DecidableEq

/-- One row of the `candidates` list of the results payload. -/
structure CandidateRow where
  rank : Option Nat
  candidate_name : String
  tier : Option String
  total_score : ℚ
  skills_score : ℚ
  experience_score : ℚ
  education_score : ℚ
  strengths : List String
  weaknesses : List String
  explanation : String
deriving DecidableEq

/-- The `response_payload` of `FetchRankingJobResultService.run`. -/
structure ResultPayload where
  job_id : String
  job_title : String
  total_candidates : Nat
  tier_distribution : List (String × Nat)
  candidates : List CandidateRow
  completed_at : Option Nat
deriving DecidableEq

/-- `FetchRankingJobResultService.run`: empty job id → `BadInputError`;
unknown job id → `NotFoundError`; job not `completed` → `BadInputError`
naming the current status; otherwise the results payload. -/
def fetch_ranking_job_result (st : JobStore) (job_id : String) (top_n : Option Nat) :
    Except ServiceError ResultPayload :=
  if job_id = "" then
    .error (.badInput "Job ID is required" "error_job_id_required" 400)
  else
    match storeGet st job_id with
    | none => .error (.notFound "Job not found" "error_job_not_found" 404)
    | some job_data =>
      if job_data.status ≠ WorkflowStatusConstant.COMPLETED then
        .error (.badInput ("Job is not completed. Current status: " ++ job_data.status)
          "error_job_not_completed" 400)
      else
        let results := job_data.results
        let ranked_candidates := (results.map (fun r => r.ranked_candidates)).getD []
        let ranked_candidates :=
          match top_n with
          | some n => if n = 0 then ranked_candidates else ranked_candidates.take n
          | none => ranked_candidates
        let candidates := ranked_candidates.map (fun c =>
          ({ rank := c.rank
             candidate_name := c.candidate_name
             tier := c.tier
             total_score := c.scores.total
             skills_score := c.scores.skills_match
             experience_score := c.scores.experience_relevance
             education_score := c.scores.education_fit
             strengths := c.strengths
             weaknesses := c.weaknesses
             explanation := c.explanation.getD "" } : CandidateRow))
        .ok
          { job_id := job_id
            job_title := ((results.bind (fun r => r.jd_data)).map (fun j => j.job_title)).getD ""
            total_candidates := (results.map (fun r => r.total_candidates_ranked)).getD 0
            tier_distribution := (results.map (fun r => r.tier_distribution)).getD []
            candidates := candidates
            completed_at := results.bind (fun r => r.completed_at) }

/-! ## Specification-side definitions

Definitions in this section transcribe sentences of the specification (not
the source); each is compared against the corresponding source definition
by the theorems below. -/

/-- The filter predicate exactly as the spec states it: keep a candidate
iff `total ≥ 30`, `skills_match ≥ 40`, and — when the JD has at least one
must-have skill of weight ≥ 0.9 — the candidate is missing none of those
critical skills (case-insensitive comparison against `missing_skills`). -/
def keepClaim (jd : JDData) (c : Candidate) : Bool :=
  decide ((30 : ℚ) ≤ c.scores.total) && decide ((40 : ℚ) ≤ c.scores.skills_match) &&
    ((critical_skills jd).isEmpty ||
      (critical_skills jd).all
        (fun skill => !((c.«matches».missing_skills.map lowerStr).contains (lowerStr skill))))

/-- The tier order: `A` above `B` above `C` above `D`. -/
def tierRank (t : String) : Nat :=
  if t = "A" then 3 else if t = "B" then 2 else if t = "C" then 1 else 0

/-- The career-trajectory formula exactly as the claim states it: base 50,
plus 35 on progression/stable-senior over up to the 5 most recent roles
(else plus 10), plus 10 when **the candidate** has 2–4 distinct employers
and minus 5 when more than 4, clamped to [0,100]. -/
def career_trajectory_claim (cv : CVData) : ℚ :=
  let role_levels := ((cv.experience.take 5).map (fun e => lowerStr e.role)).map roleLevel
  let progression_bonus : ℚ :=
    if role_levels.getLastD 0 ≤ role_levels.headD 0 then 35 else 10
  let employers := ((cv.experience.map (fun e => e.company)).dedup).length
  let diversity_adj : ℚ :=
    if 2 ≤ employers ∧ employers ≤ 4 then 10 else if 4 < employers then -5 else 0
  min 100 (max 0 (50 + progression_bonus + diversity_adj))

/-- The career-trajectory formula with the one correction the code forces:
employer diversity is computed over the (up to) 5 most recent roles only,
exactly like the progression heuristic. -/
def career_trajectory_claim_take5 (cv : CVData) : ℚ :=
  let role_levels := ((cv.experience.take 5).map (fun e => lowerStr e.role)).map roleLevel
  let progression_bonus : ℚ :=
    if role_levels.getLastD 0 ≤ role_levels.headD 0 then 35 else 10
  let employers := (((cv.experience.take 5).map (fun e => e.company)).dedup).length
  let diversity_adj : ℚ :=
    if 2 ≤ employers ∧ employers ≤ 4 then 10 else if 4 < employers then -5 else 0
  min 100 (max 0 (50 + progression_bonus + diversity_adj))

/-! ## Concrete fixtures used by witnesses and counterexamples -/

/-- A CV with no skills, no experience and no education. -/
def cvNone : CVData :=
  { cv_id := "cv-0", candidate_name := "Avery", summary := ""
    skills := ⟨[], [], [], []⟩, experience := [], education := []
    total_experience_years := 0 }

/-- Scoring weights in the shape of the JD-analyzer defaults. -/
def weightsDefault : ScoringWeights :=
  { skills := 4 / 10, experience := 3 / 10, education := 15 / 100
    career_trajectory := 1 / 10, other := 5 / 100 }

/-- A JD with one must-have skill (weight 0.9) and nothing else. -/
def jdOneMust : JDData :=
  { jd_id := "jd-1", job_title := "Engineer", company := "Acme"
    requirements :=
      { must_have_skills := [⟨"Python", 9 / 10⟩], nice_to_have_skills := []
        min_experience_years := 0, education_level := "" }
    scoring_weights := weightsDefault }

/-- A JD with no must-have skills at all. -/
def jdPlain : JDData :=
  { jd_id := "jd-0", job_title := "Engineer", company := "Acme"
    requirements :=
      { must_have_skills := [], nice_to_have_skills := []
        min_experience_years := 0, education_level := "" }
    scoring_weights := weightsDefault }

/-- A score breakdown with a given total and skills match. -/
def scoresAt (total skills : ℚ) : Scores :=
  { total := total, skills_match := skills, experience_relevance := 50
    education_fit := 50, career_trajectory := 50, confidence := 1 / 2 }

/-- A fresh (pre-ranking) candidate with the given totals and no missing
skills. -/
def candAt (id : String) (total skills : ℚ) : Candidate :=
  { candidate_id := id, cv_id := id, jd_id := "jd-0", candidate_name := id
    scores := scoresAt total skills
    «matches» := { matched_skills := [], missing_skills := [], extra_skills := [] }
    strengths := [], weaknesses := [], rank := none, tier := none, explanation := none }

/-! ## Helper lemmas -/

/-- Clamping below 100 then above 0 equals clamping above 0 then below 100. -/
theorem minmax_clamp_swap (x : ℚ) : min 100 (max 0 x) = max 0 (min 100 x) := by
  rcases le_total x 0 with h | h <;> rcases le_total x 100 with h2 | h2 <;>
    simp [min_def, max_def] <;> split_ifs <;> linarith

/-! ## C1 — match percentage formula -/

/-- C1.  For every candidate profile and JD profile, `_match_skills` returns
`match_percentage = matched_must_have_count / total_must_have_count * 100`,
and returns 0 (not 100) when the JD declares zero must-have skills. -/
theorem matching_match_percentage (cv : CVData) (jd : JDData) :
    (jd.requirements.must_have_skills = [] → (match_skills cv jd).match_percentage = 0) ∧
    (jd.requirements.must_have_skills ≠ [] →
      (match_skills cv jd).match_percentage =
        ((match_skills cv jd).matched_must_have.length : ℚ)
          / (jd.requirements.must_have_skills.length : ℚ) * 100) := by
  constructor
  · intro h
    simp [match_skills, h]
  · intro h
    have hlen : 0 < jd.requirements.must_have_skills.length := List.length_pos.mpr h
    simp [match_skills, hlen]

/-- Witness for C1 at a concrete one-must-have JD and an empty CV. -/
theorem matching_match_percentage_witness :
    (match_skills cvNone jdOneMust).match_percentage =
      ((match_skills cvNone jdOneMust).matched_must_have.length : ℚ)
        / (jdOneMust.requirements.must_have_skills.length : ℚ) * 100 :=
  (matching_match_percentage cvNone jdOneMust).2 (by simp [jdOneMust])

/-! ## C5 — skills score formula -/

/-- C5.  For every match result, `_calculate_skills_score` equals
`match_percentage*0.6 + semantic_score*0.3 + min(20, 4·#matched nice-to-have)`
clamped to [0,100]. -/
theorem scoring_skills_score_formula (m : Matches) :
    calculate_skills_score m =
      max 0 (min 100
        (m.skill_matches.match_percentage * (6 / 10) + m.semantic_score * (3 / 10)
          + min 20 (4 * (m.skill_matches.matched_nice_to_have.length : ℚ)))) := by
  unfold calculate_skills_score
  dsimp only
  rw [mul_comm (m.skill_matches.matched_nice_to_have.length : ℚ) 4, minmax_clamp_swap]

/-! ## C10 — career trajectory short-history bypass -/

/-- C10.  For every candidate with fewer than 2 experience entries,
`_calculate_career_trajectory_score` returns exactly 75, bypassing the
base-50 computation entirely. -/
theorem scoring_career_short_history (cv : CVData) (h : cv.experience.length < 2) :
    calculate_career_trajectory_score cv = 75 := by
  simp [calculate_career_trajectory_score, h]

/-- Witness for C10 at the empty CV. -/
theorem scoring_career_short_history_witness :
    cvNone.experience.length < 2 ∧ calculate_career_trajectory_score cvNone = 75 :=
  ⟨by simp [cvNone], scoring_career_short_history cvNone (by simp [cvNone])⟩

/-! ## C4 — tier assignment -/

/-- The tier rank realised by `tierOf`, as a numeric step function. -/
theorem tierRank_tierOf (t : ℚ) :
    tierRank (tierOf t) =
      if 85 ≤ t then 3 else if 70 ≤ t then 2 else if 55 ≤ t then 1 else 0 := by
  by_cases h1 : 85 ≤ t <;> by_cases h2 : 70 ≤ t <;> by_cases h3 : 55 ≤ t <;>
    simp [tierOf, tierRank, CandidateTierConstant.A, CandidateTierConstant.B,
      CandidateTierConstant.C, CandidateTierConstant.D, h1, h2, h3]

/-- `assign_ranks_and_tiers_from` assigns to each candidate exactly the
tier of its total score. -/
theorem assign_from_map_tier (n : Nat) (l : List Candidate) :
    (assign_ranks_and_tiers_from n l).map (fun c => c.tier) =
      l.map (fun c => some (tierOf c.scores.total)) := by
  induction l generalizing n with
  | nil => rfl
  | cons c rest ih => simp [assign_ranks_and_tiers_from, ih]

/-- C4.  The assigned tier is a function of the total score alone with the
fixed thresholds (A iff ≥85, B iff 70–85, C iff 55–70, D otherwise), the
mapping is monotone, and it is exact at the boundaries. -/
theorem ranking_tier_thresholds (t t' : ℚ) :
    (tierOf t = "A" ↔ 85 ≤ t) ∧
    (tierOf t = "B" ↔ 70 ≤ t ∧ t < 85) ∧
    (tierOf t = "C" ↔ 55 ≤ t ∧ t < 70) ∧
    (tierOf t = "D" ↔ t < 55) ∧
    (t ≤ t' → tierRank (tierOf t) ≤ tierRank (tierOf t')) ∧
    tierOf 85 = "A" ∧ tierOf (84999 / 1000) = "B" ∧
    ∀ cands : List Candidate,
      (assign_ranks_and_tiers cands).map (fun c => c.tier) =
        cands.map (fun c => some (tierOf c.scores.total)) := by
  refine ⟨?_, ?_, ?_, ?_, ?_, ?_, ?_, fun cands => assign_from_map_tier 0 cands⟩
  · by_cases h1 : 85 ≤ t <;> by_cases h2 : 70 ≤ t <;> by_cases h3 : 55 ≤ t <;>
      simp [tierOf, CandidateTierConstant.A, CandidateTierConstant.B,
        CandidateTierConstant.C, CandidateTierConstant.D, h1, h2, h3]
  · by_cases h1 : 85 ≤ t <;> by_cases h2 : 70 ≤ t <;> by_cases h3 : 55 ≤ t <;>
      simp [tierOf, CandidateTierConstant.A, CandidateTierConstant.B,
        CandidateTierConstant.C, CandidateTierConstant.D, h1, h2, h3, not_le, not_lt] <;>
      linarith
  · by_cases h1 : 85 ≤ t <;> by_cases h2 : 70 ≤ t <;> by_cases h3 : 55 ≤ t <;>
      simp [tierOf, CandidateTierConstant.A, CandidateTierConstant.B,
        CandidateTierConstant.C, CandidateTierConstant.D, h1, h2, h3, not_le, not_lt] <;>
      linarith
  · by_cases h1 : 85 ≤ t <;> by_cases h2 : 70 ≤ t <;> by_cases h3 : 55 ≤ t <;>
      simp [tierOf, CandidateTierConstant.A, CandidateTierConstant.B,
        CandidateTierConstant.C, CandidateTierConstant.D, h1, h2, h3, not_le, not_lt] <;>
      linarith
  · intro h
    rw [tierRank_tierOf, tierRank_tierOf]
    split_ifs <;> first | decide | (exfalso; linarith)
  · norm_num [tierOf, CandidateTierConstant.A]
  · norm_num [tierOf, CandidateTierConstant.B]

/-- Witness for the monotonicity hypothesis of C4 at totals 60 and 90. -/
theorem ranking_tier_thresholds_witness :
    tierRank (tierOf 60) ≤ tierRank (tierOf 90) :=
  (ranking_tier_thresholds 60 90).2.2.2.2.1 (by norm_num)

/-! ## C3 — the ranking filter -/

/-- The source filter loop equals `List.filter` with the spec's keep
predicate. -/
theorem apply_filters_eq_filter (cands : List Candidate) (jd : JDData) :
    apply_filters cands jd = cands.filter (keepClaim jd) := by
  induction cands with
  | nil => rfl
  | cons c rest ih =>
    simp only [apply_filters, List.filter_cons]
    by_cases h1 : c.scores.total < 30
    · have hk : keepClaim jd c = false := by
        simp [keepClaim, not_le.mpr h1]
      rw [if_pos h1, hk, ih]
      simp
    · rw [if_neg h1]
      by_cases h2 : c.scores.skills_match < 40
      · have hk : keepClaim jd c = false := by
          simp [keepClaim, not_le.mpr h2]
        rw [if_pos h2, hk, ih]
        simp
      · rw [if_neg h2]
        by_cases h3 : (critical_skills jd).any
            (fun skill => (c.«matches».missing_skills.map lowerStr).contains (lowerStr skill)) = true
        · obtain ⟨s, hs, hps⟩ := List.any_eq_true.mp h3
          have hlen : 0 < (critical_skills jd).length :=
            List.length_pos.mpr (List.ne_nil_of_mem hs)
          have hk : keepClaim jd c = false := by
            have hall : (critical_skills jd).all
                (fun skill =>
                  !((c.«matches».missing_skills.map lowerStr).contains (lowerStr skill))) = false := by
              rw [Bool.eq_false_iff]
              intro hcon
              have hfa := List.all_eq_true.mp hcon s hs
              rw [hps] at hfa
              simp at hfa
            have hemp : (critical_skills jd).isEmpty = false := by
              cases hcl : critical_skills jd with
              | nil => rw [hcl] at hlen; simp at hlen
              | cons a l => simp [List.isEmpty]
            unfold keepClaim
            rw [hall, hemp]
            simp
          rw [if_pos (by rw [h3, Bool.true_and]; exact decide_eq_true hlen), hk, ih]
          simp
        · have h3' : (critical_skills jd).any
              (fun skill => (c.«matches».missing_skills.map lowerStr).contains (lowerStr skill))
                = false := by
            simpa using h3
          have hk : keepClaim jd c = true := by
            have hall : (critical_skills jd).all
                (fun skill =>
                  !((c.«matches».missing_skills.map lowerStr).contains (lowerStr skill))) = true := by
              simp only [List.all_eq_true, Bool.not_eq_true']
              intro x hx
              simpa using List.any_eq_false.mp h3' x hx
            unfold keepClaim
            rw [hall]
            simp [not_lt.mp h1, not_lt.mp h2]
          rw [if_neg (by rw [h3', Bool.false_and]; exact Bool.false_ne_true), hk, ih]
          simp

/-- C3.  The ranking filter keeps exactly the candidates with
`total ≥ 30`, `skills_match ≥ 40` and no missing critical skill
(case-insensitively), and in particular a candidate with `total = 29.9`
is excluded even though no other rule excludes it. -/
theorem ranking_filter_spec :
    (∀ (jd : JDData) (cands : List Candidate),
        apply_filters cands jd = cands.filter (keepClaim jd)) ∧
    apply_filters [candAt "x" (299 / 10) 100] jdPlain = [] :=
  ⟨fun jd cands => apply_filters_eq_filter cands jd,
   by norm_num [apply_filters, candAt, jdPlain, scoresAt, critical_skills, weightsDefault]⟩

/-! ## C8 — idempotence of `RankingAgent.process` -/

/-- The non-empty path of `rank_process`, as a list transformer: filter,
stable sort, rank/tier assignment, explanation generation. -/
def rank_pipeline (cs : List Candidate) (jd : JDData) : List Candidate :=
  (assign_ranks_and_tiers (sortCandidates (apply_filters cs jd))).map explSet

/-- The totals of a candidate list, in order. -/
def totalKeys (l : List Candidate) : List ℚ :=
  l.map (fun c => c.scores.total)

/-- Rank/tier assignment does not change any total. -/
theorem totalKeys_assign_from (n : Nat) (l : List Candidate) :
    totalKeys (assign_ranks_and_tiers_from n l) = totalKeys l := by
  induction l generalizing n with
  | nil => rfl
  | cons c rest ih =>
    simp only [assign_ranks_and_tiers_from, totalKeys, List.map_cons]
    exact congrArg₂ List.cons rfl (ih (n + 1))

/-- Explanation generation does not change any total. -/
theorem totalKeys_map_explSet (l : List Candidate) :
    totalKeys (l.map explSet) = totalKeys l := by
  induction l with
  | nil => rfl
  | cons c rest ih =>
    simp only [totalKeys, List.map_cons] at ih ⊢
    rw [ih]
    rfl

/-- Sortedness under `byTotalDesc` only depends on the totals. -/
theorem sorted_totalKeys_iff (l : List Candidate) :
    List.Sorted byTotalDesc l ↔ List.Pairwise (fun a b : ℚ => b ≤ a) (totalKeys l) := by
  unfold totalKeys byTotalDesc List.Sorted
  rw [List.pairwise_map]

/-- Every element of the ranking pipeline's output passes the filter. -/
theorem keepClaim_all_pipeline (jd : JDData) (cs : List Candidate) :
    ∀ c ∈ rank_pipeline cs jd, keepClaim jd c = true := by
  intro c hc
  obtain ⟨d, hd, rfl⟩ := List.mem_map.mp hc
  have hmem : ∀ {m : Nat} {l : List Candidate}, d ∈ assign_ranks_and_tiers_from m l →
      ∃ e ∈ l, ∃ i : Nat,
        d = { e with rank := some (i + 1), tier := some (tierOf e.scores.total) } := by
    intro m l
    induction l generalizing m with
    | nil => intro h; exact absurd h (List.not_mem_nil d)
    | cons e rest ih =>
      intro h
      rcases List.mem_cons.mp h with h | h
      · exact ⟨e, List.mem_cons_self e rest, m, h⟩
      · obtain ⟨e', he', i, hi⟩ := ih h
        exact ⟨e', List.mem_cons_of_mem e he', i, hi⟩
  obtain ⟨e, he, i, rfl⟩ := hmem hd
  have he' : e ∈ apply_filters cs jd := (List.mem_insertionSort byTotalDesc).mp he
  rw [apply_filters_eq_filter] at he'
  exact (List.mem_filter.mp he').2

/-- Re-running assignment and explanation generation on an
already-assigned, already-explained list changes nothing. -/
theorem assign_expl_fix (n : Nat) (l : List Candidate) :
    (assign_ranks_and_tiers_from n
        ((assign_ranks_and_tiers_from n l).map explSet)).map explSet
      = (assign_ranks_and_tiers_from n l).map explSet := by
  induction l generalizing n with
  | nil => rfl
  | cons c rest ih =>
    simp only [assign_ranks_and_tiers_from, List.map_cons]
    exact congrArg₂ List.cons rfl (ih (n + 1))

/-- `rank_process` on a non-empty input is the full pipeline. -/
theorem rank_process_cons (cs : List Candidate) (jd : JDData) (h : cs ≠ []) :
    rank_process cs jd =
      { success := true
        ranked_candidates := rank_pipeline cs jd
        total_candidates := some (rank_pipeline cs jd).length
        tiers := some (calculate_tier_distribution (rank_pipeline cs jd)) } := by
  cases cs with
  | nil => exact absurd rfl h
  | cons a l => rfl

/-- The ranking pipeline is a fixed point on its own output. -/
theorem rank_pipeline_fix (cs : List Candidate) (jd : JDData) :
    rank_pipeline (rank_pipeline cs jd) jd = rank_pipeline cs jd := by
  have hpass : ∀ c ∈ rank_pipeline cs jd, keepClaim jd c = true := keepClaim_all_pipeline jd cs
  have hfilter : apply_filters (rank_pipeline cs jd) jd = rank_pipeline cs jd := by
    rw [apply_filters_eq_filter]
    exact List.filter_eq_self.mpr hpass
  have hsorted : List.Sorted byTotalDesc (rank_pipeline cs jd) := by
    have h1 : List.Sorted byTotalDesc (sortCandidates (apply_filters cs jd)) :=
      List.sorted_insertionSort byTotalDesc (apply_filters cs jd)
    rw [sorted_totalKeys_iff] at h1 ⊢
    unfold rank_pipeline assign_ranks_and_tiers
    rw [totalKeys_map_explSet, totalKeys_assign_from]
    exact h1
  have hsort_eq : sortCandidates (rank_pipeline cs jd) = rank_pipeline cs jd :=
    List.Sorted.insertionSort_eq hsorted
  show (assign_ranks_and_tiers
      (sortCandidates (apply_filters (rank_pipeline cs jd) jd))).map explSet
    = rank_pipeline cs jd
  rw [hfilter, hsort_eq]
  exact assign_expl_fix 0 (sortCandidates (apply_filters cs jd))

/-- C8 (amended).  Re-running `RankingAgent.process` (with the same JD) on
its own ranked output always reproduces the identical ranked sequence —
same order, ranks, tiers and explanations — and, whenever that sequence is
non-empty, the identical response including `total_candidates` and the tier
distribution. -/
theorem ranking_rank_idempotent (cs : List Candidate) (jd : JDData) :
    (rank_process (rank_process cs jd).ranked_candidates jd).ranked_candidates
        = (rank_process cs jd).ranked_candidates ∧
    ((rank_process cs jd).ranked_candidates ≠ [] →
      rank_process (rank_process cs jd).ranked_candidates jd = rank_process cs jd) := by
  cases cs with
  | nil => exact ⟨rfl, fun h => absurd rfl h⟩
  | cons c rest =>
    by_cases hL : rank_pipeline (c :: rest) jd = []
    · constructor
      · show (rank_process (rank_pipeline (c :: rest) jd) jd).ranked_candidates
            = rank_pipeline (c :: rest) jd
        rw [hL]
        rfl
      · intro hne
        exact absurd hL hne
    · have hfix := rank_pipeline_fix (c :: rest) jd
      obtain ⟨a, l, hLeq⟩ : ∃ a l, rank_pipeline (c :: rest) jd = a :: l := by
        cases hq : rank_pipeline (c :: rest) jd with
        | nil => exact absurd hq hL
        | cons a l => exact ⟨a, l, rfl⟩
      have h2 : rank_process (rank_pipeline (c :: rest) jd) jd
          = rank_process (c :: rest) jd := by
        rw [rank_process_cons (c :: rest) jd (List.cons_ne_nil c rest)]
        rw [hLeq] at hfix
        rw [hLeq]
        rw [rank_process_cons (a :: l) jd (List.cons_ne_nil a l), hfix]
      exact ⟨congrArg RankOutput.ranked_candidates h2, fun _ => h2⟩

/-- Witness for C8 at a concrete surviving candidate. -/
theorem ranking_rank_idempotent_witness :
    rank_process (rank_process [candAt "g" 90 90] jdPlain).ranked_candidates jdPlain
      = rank_process [candAt "g" 90 90] jdPlain :=
  (ranking_rank_idempotent [candAt "g" 90 90] jdPlain).2 (by
    norm_num [rank_process, apply_filters, candAt, jdPlain, scoresAt, critical_skills,
      weightsDefault, sortCandidates, assign_ranks_and_tiers, assign_ranks_and_tiers_from])

/-- Counterexample for C8 as stated: a non-empty input whose single
candidate is filtered out.  The first run reports an all-zero tier
distribution and a zero candidate count; the re-run on the (empty) output
reports neither, so the full responses differ. -/
theorem ranking_rank_idempotent_cex :
    (rank_process [candAt "b" 0 0] jdPlain).tiers
        = some [("A", 0), ("B", 0), ("C", 0), ("D", 0)] ∧
    (rank_process (rank_process [candAt "b" 0 0] jdPlain).ranked_candidates jdPlain).tiers
        = none ∧
    rank_process (rank_process [candAt "b" 0 0] jdPlain).ranked_candidates jdPlain
      ≠ rank_process [candAt "b" 0 0] jdPlain := by
  refine ⟨?_, ?_, ?_⟩
  · norm_num [rank_process, apply_filters, candAt, jdPlain, scoresAt, critical_skills,
      weightsDefault, sortCandidates, assign_ranks_and_tiers, assign_ranks_and_tiers_from,
      calculate_tier_distribution, incrKey]
  · norm_num [rank_process, apply_filters, candAt, jdPlain, scoresAt, critical_skills,
      weightsDefault, sortCandidates, assign_ranks_and_tiers, assign_ranks_and_tiers_from]
  · norm_num [rank_process, apply_filters, candAt, jdPlain, scoresAt, critical_skills,
      weightsDefault, sortCandidates, assign_ranks_and_tiers, assign_ranks_and_tiers_from]
    exact fun h => Option.noConfusion h

/-! ## C2 — JD-analysis failure is fatal -/

/-- Overwriting an existing key: the lookup then yields the new value. -/
theorem find_map_overwrite (k : String) (v : JobRecord) :
    ∀ st : JobStore, (st.map Prod.fst).contains k = true →
      ((st.map (fun p => if p.1 = k then (k, v) else p)).find?
          (fun p => p.1 = k)).map Prod.snd = some v := by
  intro st
  induction st with
  | nil => intro h; simp at h
  | cons p rest ih =>
    intro h
    by_cases hp : p.1 = k
    · simp [hp]
    · have h' : (rest.map Prod.fst).contains k = true := by
        have hbeq : (k == p.1) = false := beq_eq_false_iff_ne.mpr (fun he => hp he.symm)
        simpa [List.contains_cons, hbeq] using h
      simpa [hp] using ih h'

/-- Appending a fresh key: the lookup then yields the new value. -/
theorem find_append_fresh (k : String) (v : JobRecord) :
    ∀ st : JobStore, (st.map Prod.fst).contains k = false →
      ((st ++ [(k, v)]).find? (fun p => p.1 = k)).map Prod.snd = some v := by
  intro st
  induction st with
  | nil => intro _; simp
  | cons p rest ih =>
    intro h
    have hbeq : ¬ (k == p.1) = true := by
      intro hb
      rw [List.map_cons, List.contains_cons, hb, Bool.true_or] at h
      exact Bool.noConfusion h
    have hp : ¬ p.1 = k := fun he => hbeq (beq_iff_eq.mpr he.symm)
    have h' : (rest.map Prod.fst).contains k = false := by
      rw [List.map_cons, List.contains_cons] at h
      rcases Bool.or_eq_false_iff.mp h with ⟨_, h2⟩
      exact h2
    simpa [hp] using ih h'

/-- `Set` then `Get` on the same key returns the written value. -/
theorem storeGet_set_self (st : JobStore) (k : String) (v : JobRecord) :
    storeGet (storeSet st k v) k = some v := by
  unfold storeSet storeGet
  by_cases hc : (st.map Prod.fst).contains k
  · rw [if_pos hc]
    exact find_map_overwrite k v st hc
  · rw [if_neg hc]
    exact find_append_fresh k v st (Bool.eq_false_iff.mpr hc)

/-- C2.  If the JD-analysis collaborator fails, the whole pipeline run
returns `success = false` with the non-empty error message
`"Failed to analyze job description"`, ranking is never attempted, and the
job record stored under the job id has status `failed` with a non-empty
error message. -/
theorem orchestrator_jd_failure (env : OrchestratorEnv) (st : JobStore)
    (job_id job_title company : String) (cv_count n₀ n₁ : Nat)
    (h : env.jd_result.success = false) :
    (orchestrator_process env).success = false ∧
    (orchestrator_process env).rankingInvoked = false ∧
    (orchestrator_process env).error = some "Failed to analyze job description" ∧
    ∃ rec : JobRecord,
      storeGet (process_ranking_job st job_id job_title company cv_count n₀ n₁ env) job_id
        = some rec ∧
      rec.status = WorkflowStatusConstant.FAILED ∧
      ∃ msg, rec.error = some msg ∧ msg ≠ "" := by
  have horch : orchestrator_process env =
      orchestrator_handle_error env "Failed to analyze job description" false := by
    unfold orchestrator_process
    rw [h]
    rfl
  refine ⟨by rw [horch]; rfl, by rw [horch]; rfl, by rw [horch]; rfl, ?_⟩
  unfold process_ranking_job
  dsimp only
  rw [horch]
  rw [if_neg (by exact Bool.false_ne_true)]
  exact ⟨_, storeGet_set_self _ job_id _, rfl, "Failed to analyze job description", rfl,
    by decide⟩

/-- A concrete environment whose JD analysis fails. -/
def envFail : OrchestratorEnv :=
  { job_id := "job-1", jd_result := { success := false, jd_data := jdPlain }
    parsed_cvs := [], match_and_score := fun _ => none, completed_at := 0 }

/-- Witness for C2 at `envFail` over the empty store. -/
theorem orchestrator_jd_failure_witness :
    (orchestrator_process envFail).success = false ∧
    (orchestrator_process envFail).rankingInvoked = false ∧
    (orchestrator_process envFail).error = some "Failed to analyze job description" ∧
    ∃ rec : JobRecord,
      storeGet (process_ranking_job [] "job-1" "Engineer" "Acme" 0 0 1 envFail) "job-1"
        = some rec ∧
      rec.status = WorkflowStatusConstant.FAILED ∧
      ∃ msg, rec.error = some msg ∧ msg ≠ "" :=
  orchestrator_jd_failure envFail [] "job-1" "Engineer" "Acme" 0 0 1 rfl

/-! ## C9 — results-query error handling -/

/-- Is a fetch outcome a `NotFoundError`? -/
def isNotFoundResult : Except ServiceError ResultPayload → Bool
  | .error (.notFound _ _ _) => true
  | _ => false

/-- C9 (amended).  A results query with a **non-empty** unknown job id
fails with `NotFoundError`; an empty job id fails earlier with the
`BadInputError` "Job ID is required"; a stored job whose status is not
`completed` fails with a `BadInputError` naming the current status.  Each
case returns an error, never a results payload. -/
theorem results_query_errors (st : JobStore) (job_id : String) (top_n : Option Nat) :
    (job_id = "" →
      fetch_ranking_job_result st job_id top_n
        = .error (.badInput "Job ID is required" "error_job_id_required" 400)) ∧
    (job_id ≠ "" → storeGet st job_id = none →
      fetch_ranking_job_result st job_id top_n
        = .error (.notFound "Job not found" "error_job_not_found" 404)) ∧
    (∀ rec : JobRecord, job_id ≠ "" → storeGet st job_id = some rec →
      rec.status ≠ WorkflowStatusConstant.COMPLETED →
      fetch_ranking_job_result st job_id top_n
        = .error (.badInput ("Job is not completed. Current status: " ++ rec.status)
            "error_job_not_completed" 400)) := by
  refine ⟨fun h => ?_, fun h hn => ?_, fun rec h hs hst => ?_⟩
  · unfold fetch_ranking_job_result
    rw [if_pos h]
  · unfold fetch_ranking_job_result
    rw [if_neg h, hn]
  · unfold fetch_ranking_job_result
    rw [if_neg h, hs]
    dsimp only
    rw [if_pos hst]

/-- A stored job record that is still `processing`. -/
def jobRecProcessing : JobRecord :=
  { status := WorkflowStatusConstant.PROCESSING, created_at := some 0, completed_at := none
    cv_count := 1, job_title := "Engineer", company := "Acme", results := none, error := none }

/-- Witness for C9 at concrete stores. -/
theorem results_query_errors_witness :
    fetch_ranking_job_result [] "" none
      = .error (.badInput "Job ID is required" "error_job_id_required" 400) ∧
    fetch_ranking_job_result [] "job-9" none
      = .error (.notFound "Job not found" "error_job_not_found" 404) ∧
    fetch_ranking_job_result [("job-9", jobRecProcessing)] "job-9" none
      = .error (.badInput ("Job is not completed. Current status: " ++ jobRecProcessing.status)
          "error_job_not_completed" 400) :=
  ⟨(results_query_errors [] "" none).1 rfl,
   (results_query_errors [] "job-9" none).2.1 (by decide) rfl,
   (results_query_errors [("job-9", jobRecProcessing)] "job-9" none).2.2 jobRecProcessing
     (by decide) rfl (by decide)⟩

/-- Counterexample for C9 as stated: the empty job id is absent from the
empty store, yet the query fails with a `BadInputError`, not a
`NotFoundError`. -/
theorem results_query_cex :
    storeGet ([] : JobStore) "" = none ∧
    isNotFoundResult (fetch_ranking_job_result [] "" none) = false ∧
    fetch_ranking_job_result [] "" none
      = .error (.badInput "Job ID is required" "error_job_id_required" 400) :=
  ⟨rfl, rfl, rfl⟩

/-! ## C6 — career trajectory formula -/

/-- A one-year experience entry at the given company and role. -/
def expAt (comp role : String) : ExperienceEntry :=
  { company := comp, role := role, technologies := [], duration_months := 12 }

/-- Six experience entries: the five most recent share one employer, the
sixth has a different one. -/
def cvSixJobs : CVData :=
  { cv_id := "cv-6", candidate_name := "Rowan", summary := "", skills := ⟨[], [], [], []⟩
    experience := [expAt "a" "", expAt "a" "", expAt "a" "", expAt "a" "", expAt "a" "",
      expAt "b" ""]
    education := [], total_experience_years := 6 }

/-- C6 (amended).  For every candidate with at least two experience
entries, the career-trajectory score equals base 50, plus 35 on
progression/stable-senior (else plus 10), with the employer-diversity
adjustment computed over the 5 most recent roles, clamped to [0,100]. -/
theorem scoring_career_trajectory_amended (cv : CVData) (h : 2 ≤ cv.experience.length) :
    calculate_career_trajectory_score cv = career_trajectory_claim_take5 cv := by
  unfold calculate_career_trajectory_score career_trajectory_claim_take5
  rw [if_neg (not_lt.mpr h)]
  dsimp only
  have hlen : 2 ≤ (((cv.experience.take 5).map (fun e => lowerStr e.role)).map roleLevel).length := by
    simp only [List.length_map, List.length_take]
    exact le_min (by norm_num) h
  rw [if_pos hlen]
  split_ifs <;> norm_num

/-- Witness for C6 (amended) at the six-job CV. -/
theorem scoring_career_trajectory_amended_witness :
    2 ≤ cvSixJobs.experience.length ∧
    calculate_career_trajectory_score cvSixJobs = career_trajectory_claim_take5 cvSixJobs :=
  ⟨by decide, scoring_career_trajectory_amended cvSixJobs (by decide)⟩

/-- Counterexample for C6 as stated: with six experience entries the code
counts employers over the five most recent roles only (one employer, no
bonus, score 85), while the claim counts the candidate's distinct
employers (two employers, +10 bonus, score 95). -/
theorem scoring_career_trajectory_cex :
    calculate_career_trajectory_score cvSixJobs = 85 ∧
    career_trajectory_claim cvSixJobs = 95 := by
  have hlv : ((cvSixJobs.experience.take 5).map (fun e => lowerStr e.role)).map roleLevel
      = [1, 1, 1, 1, 1] := by decide
  have hcomp : (((cvSixJobs.experience.take 5).map (fun e => e.company)).dedup).length = 1 := by
    decide
  have hcompAll : ((cvSixJobs.experience.map (fun e => e.company)).dedup).length = 2 := by
    decide
  constructor
  · unfold calculate_career_trajectory_score
    rw [if_neg (by decide)]
    dsimp only
    rw [hlv, hcomp]
    norm_num
  · unfold career_trajectory_claim
    dsimp only
    rw [hlv, hcompAll]
    norm_num

/-! ## C7 — score bounds -/

/-- Round-half-even of a non-negative rational is non-negative. -/
theorem rndHE_nonneg {q : ℚ} (h : 0 ≤ q) : 0 ≤ rndHE q := by
  unfold rndHE
  dsimp only
  have hf : 0 ≤ ⌊q⌋ := Int.floor_nonneg.mpr h
  split_ifs <;> omega

/-- Round-half-even never overshoots an integer upper bound. -/
theorem rndHE_le (m : ℤ) {q : ℚ} (h : q ≤ (m : ℚ)) : rndHE q ≤ m := by
  unfold rndHE
  dsimp only
  have hf : ⌊q⌋ ≤ m := by
    have hff := Int.floor_le_floor h
    rwa [Int.floor_intCast] at hff
  have hq : (⌊q⌋ : ℚ) ≤ q := Int.floor_le q
  split_ifs with h1 h2 h3
  · exact hf
  · have h1' : (1 / 2 : ℚ) ≤ q - ⌊q⌋ := not_lt.mp h1
    by_contra hc
    have hm : m ≤ ⌊q⌋ := by omega
    have hmq : (m : ℚ) ≤ (⌊q⌋ : ℚ) := Int.cast_le.mpr hm
    linarith
  · exact hf
  · have h1' : (1 / 2 : ℚ) ≤ q - ⌊q⌋ := not_lt.mp h1
    by_contra hc
    have hm : m ≤ ⌊q⌋ := by omega
    have hmq : (m : ℚ) ≤ (⌊q⌋ : ℚ) := Int.cast_le.mpr hm
    linarith

/-- `round(x, 2)` preserves non-negativity. -/
theorem round2_nonneg {q : ℚ} (h : 0 ≤ q) : 0 ≤ round2 q := by
  unfold round2
  have h0 : 0 ≤ rndHE (q * 100) := rndHE_nonneg (by positivity)
  exact div_nonneg (by exact_mod_cast h0) (by norm_num)

/-- `round(x, 2)` preserves the bound 100. -/
theorem round2_le_100 {q : ℚ} (h : q ≤ 100) : round2 q ≤ 100 := by
  unfold round2
  have h1 : rndHE (q * 100) ≤ 10000 := rndHE_le 10000 (by push_cast; linarith)
  rw [div_le_iff₀ (by norm_num : (0 : ℚ) < 100)]
  calc ((rndHE (q * 100) : ℤ) : ℚ) ≤ ((10000 : ℤ) : ℚ) := Int.cast_le.mpr h1
  _ = 100 * 100 := by norm_num

/-- `round(x, 2)` preserves the bound 1. -/
theorem round2_le_one {q : ℚ} (h : q ≤ 1) : round2 q ≤ 1 := by
  unfold round2
  have h1 : rndHE (q * 100) ≤ 100 := rndHE_le 100 (by push_cast; linarith)
  rw [div_le_iff₀ (by norm_num : (0 : ℚ) < 100)]
  calc ((rndHE (q * 100) : ℤ) : ℚ) ≤ ((100 : ℤ) : ℚ) := Int.cast_le.mpr h1
  _ = 1 * 100 := by norm_num

/-- The skills score is clamped to [0,100]. -/
theorem skills_score_bounds (m : Matches) :
    0 ≤ calculate_skills_score m ∧ calculate_skills_score m ≤ 100 := by
  unfold calculate_skills_score
  dsimp only
  exact ⟨le_min (by norm_num) (le_max_left 0 _), min_le_left _ _⟩

/-- The experience score lies in [0,100] for non-negative CV years. -/
theorem experience_score_bounds (m : Matches) (h : 0 ≤ m.experience_match.cv_years) :
    0 ≤ calculate_experience_score m ∧ calculate_experience_score m ≤ 100 := by
  unfold calculate_experience_score
  dsimp only
  split_ifs with h0 h1 h2 h3
  · norm_num
  · norm_num
  · norm_num
  · norm_num
  · have hlt : m.experience_match.cv_years < m.experience_match.required_years := not_le.mp h1
    have hreq : 0 < m.experience_match.required_years := lt_of_le_of_lt h hlt
    have hdiv1 : m.experience_match.cv_years / m.experience_match.required_years ≤ 1 :=
      (div_le_one hreq).mpr hlt.le
    have hdiv0 : 0 ≤ m.experience_match.cv_years / m.experience_match.required_years :=
      div_nonneg h hreq.le
    constructor
    · exact mul_nonneg hdiv0 (by norm_num)
    · nlinarith

/-- The education score is one of 50, 100 or 70. -/
theorem education_score_bounds (m : Matches) :
    0 ≤ calculate_education_score m ∧ calculate_education_score m ≤ 100 := by
  unfold calculate_education_score
  dsimp only
  split_ifs <;> norm_num

/-- The career-trajectory score is clamped to [0,100]. -/
theorem career_score_bounds (cv : CVData) :
    0 ≤ calculate_career_trajectory_score cv ∧ calculate_career_trajectory_score cv ≤ 100 := by
  unfold calculate_career_trajectory_score
  by_cases h : cv.experience.length < 2
  · rw [if_pos h]
    norm_num
  · rw [if_neg h]
    dsimp only
    exact ⟨le_min (by norm_num) (le_max_left 0 _), min_le_left _ _⟩

/-- The confidence lies in [0,1] (in fact in [1/2,1]). -/
theorem confidence_bounds (m : Matches) (cv : CVData) :
    0 ≤ calculate_confidence m cv ∧ calculate_confidence m cv ≤ 1 := by
  unfold calculate_confidence
  dsimp only
  constructor
  · refine le_min (by norm_num) ?_
    split_ifs <;> norm_num
  · exact min_le_left _ _

/-- C7 (amended).  Every sub-score of a produced `CandidateScore` lies in
[0,100] and the confidence in [0,1] (given the derived non-negativity of
the candidate's years of experience); the **total** lies in [0,100]
provided the scoring weights are non-negative and sum to at most 1 —
without that proviso it is unbounded, see the counterexample. -/
theorem scoring_bounds_amended (cv : CVData) (jd : JDData) (m : Matches)
    (hy : 0 ≤ m.experience_match.cv_years) :
    (0 ≤ (scoring_process cv jd m).scores.skills_match ∧
      (scoring_process cv jd m).scores.skills_match ≤ 100) ∧
    (0 ≤ (scoring_process cv jd m).scores.experience_relevance ∧
      (scoring_process cv jd m).scores.experience_relevance ≤ 100) ∧
    (0 ≤ (scoring_process cv jd m).scores.education_fit ∧
      (scoring_process cv jd m).scores.education_fit ≤ 100) ∧
    (0 ≤ (scoring_process cv jd m).scores.career_trajectory ∧
      (scoring_process cv jd m).scores.career_trajectory ≤ 100) ∧
    (0 ≤ (scoring_process cv jd m).scores.confidence ∧
      (scoring_process cv jd m).scores.confidence ≤ 1) ∧
    (0 ≤ jd.scoring_weights.skills → 0 ≤ jd.scoring_weights.experience →
      0 ≤ jd.scoring_weights.education → 0 ≤ jd.scoring_weights.career_trajectory →
      jd.scoring_weights.skills + jd.scoring_weights.experience +
          jd.scoring_weights.education + jd.scoring_weights.career_trajectory ≤ 1 →
      0 ≤ (scoring_process cv jd m).scores.total ∧
        (scoring_process cv jd m).scores.total ≤ 100) := by
  have hsk := skills_score_bounds m
  have hex := experience_score_bounds m hy
  have hed := education_score_bounds m
  have hca := career_score_bounds cv
  have hco := confidence_bounds m cv
  refine ⟨⟨round2_nonneg hsk.1, round2_le_100 hsk.2⟩,
    ⟨round2_nonneg hex.1, round2_le_100 hex.2⟩,
    ⟨round2_nonneg hed.1, round2_le_100 hed.2⟩,
    ⟨round2_nonneg hca.1, round2_le_100 hca.2⟩,
    ⟨round2_nonneg hco.1, round2_le_one hco.2⟩,
    fun hw1 hw2 hw3 hw4 hsum => ?_⟩
  have hT0 : 0 ≤ jd.scoring_weights.skills * calculate_skills_score m +
      jd.scoring_weights.experience * calculate_experience_score m +
      jd.scoring_weights.education * calculate_education_score m +
      jd.scoring_weights.career_trajectory * calculate_career_trajectory_score cv := by
    have t1 := mul_nonneg hw1 hsk.1
    have t2 := mul_nonneg hw2 hex.1
    have t3 := mul_nonneg hw3 hed.1
    have t4 := mul_nonneg hw4 hca.1
    linarith
  have hT1 : jd.scoring_weights.skills * calculate_skills_score m +
      jd.scoring_weights.experience * calculate_experience_score m +
      jd.scoring_weights.education * calculate_education_score m +
      jd.scoring_weights.career_trajectory * calculate_career_trajectory_score cv ≤ 100 := by
    have t1 := mul_le_mul_of_nonneg_left hsk.2 hw1
    have t2 := mul_le_mul_of_nonneg_left hex.2 hw2
    have t3 := mul_le_mul_of_nonneg_left hed.2 hw3
    have t4 := mul_le_mul_of_nonneg_left hca.2 hw4
    nlinarith
  exact ⟨round2_nonneg hT0, round2_le_100 hT1⟩

/-- A match result with full must-have match, full semantic score and five
matched nice-to-have skills. -/
def matchesFull : Matches :=
  { skill_matches :=
      { matched_must_have := [], missing_must_have := []
        matched_nice_to_have :=
          [⟨"n1", 1, 80⟩, ⟨"n2", 1, 80⟩, ⟨"n3", 1, 80⟩, ⟨"n4", 1, 80⟩, ⟨"n5", 1, 80⟩]
        extra_skills := [], match_percentage := 100 }
    semantic_score := 100
    experience_match :=
      { cv_years := 0, required_years := 0, meets_requirement := true, difference_years := 0 }
    education_match :=
      { has_education := false, highest_degree := "", required_level := ""
        meets_requirement := true } }

/-- A JD whose author put weight 2 on skills and 0 elsewhere. -/
def jdSkillsHeavy : JDData :=
  { jd_id := "jd-2", job_title := "Engineer", company := "Acme"
    requirements :=
      { must_have_skills := [], nice_to_have_skills := []
        min_experience_years := 0, education_level := "" }
    scoring_weights :=
      { skills := 2, experience := 0, education := 0, career_trajectory := 0, other := 0 } }

/-- Witness for C7 (amended) at concrete inputs with the default weights. -/
theorem scoring_bounds_amended_witness :
    0 ≤ matchesFull.experience_match.cv_years ∧
    0 ≤ (scoring_process cvNone jdPlain matchesFull).scores.total ∧
    (scoring_process cvNone jdPlain matchesFull).scores.total ≤ 100 :=
  ⟨le_refl 0,
   ((scoring_bounds_amended cvNone jdPlain matchesFull (le_refl 0)).2.2.2.2.2
       (by norm_num [jdPlain, weightsDefault]) (by norm_num [jdPlain, weightsDefault])
       (by norm_num [jdPlain, weightsDefault]) (by norm_num [jdPlain, weightsDefault])
       (by norm_num [jdPlain, weightsDefault])).1,
   ((scoring_bounds_amended cvNone jdPlain matchesFull (le_refl 0)).2.2.2.2.2
       (by norm_num [jdPlain, weightsDefault]) (by norm_num [jdPlain, weightsDefault])
       (by norm_num [jdPlain, weightsDefault]) (by norm_num [jdPlain, weightsDefault])
       (by norm_num [jdPlain, weightsDefault])).2⟩

/-- Counterexample for C7 as stated: with author-supplied weight 2 on
skills, the produced total is 200, outside [0,100] — the code never clamps
the total. -/
theorem scoring_total_unbounded_cex :
    (scoring_process cvNone jdSkillsHeavy matchesFull).scores.total = 200 ∧
    ¬ (scoring_process cvNone jdSkillsHeavy matchesFull).scores.total ≤ 100 := by
  have htot : (scoring_process cvNone jdSkillsHeavy matchesFull).scores.total = 200 := by
    norm_num [scoring_process, calculate_skills_score, calculate_experience_score,
      calculate_education_score, calculate_career_trajectory_score, calculate_confidence,
      round2, rndHE, matchesFull, jdSkillsHeavy, cvNone]
  exact ⟨htot, by rw [htot]; norm_num⟩
